import Mathlib

/-!
Verification of the irrigation-scheduling core of this repository
(src/scripts/irrigation_scheduling.py), as a shallow embedding in Lean.

Numbers are modelled as exact rationals (ℚ).  Python operations that can
raise are modelled in the `Except PyError` monad: list subscripts raise
`indexError` when out of range (the built-in IndexError), `datetime.date`
with an invalid month and `np.linspace` with a negative sample count raise
`valueError` (the built-in ValueError).  `round(x, 2)` is modelled by
`round2` (round to the nearest multiple of 1/100).
-/

/-- Python exception outcomes observable in the translated code. -/
inductive PyError where
  | indexError
  | valueError
deriving DecidableEq, Repr, Inhabited

/-- Python list subscript `xs[i]` for a non-negative index: the element, or
IndexError when out of range. -/
def pyGet {α : Type} (xs : List α) (i : ℕ) : Except PyError α :=
  match xs[i]? with
  | some v => Except.ok v
  | none => Except.error PyError.indexError

/-- Python list subscript `xs[-1]`: the last element, or IndexError on an
empty list. -/
def pyLast {α : Type} (xs : List α) : Except PyError α :=
  match xs.getLast? with
  | some v => Except.ok v
  | none => Except.error PyError.indexError

/-- Day counts of the months of 2024 (a leap year), as used by
`datetime.date(2024, m, 1)` arithmetic in the source. -/
def monthsDays2024 : List ℕ := [31, 29, 31, 30, 31, 30, 31, 31, 30, 31, 30, 31]

/-- Days from 2024-01-01 to the first day of month `m` of 2024. -/
def monthOffset (m : ℕ) : ℕ := (monthsDays2024.take (m - 1)).sum

/-- `datetime.date(2024, m, 1)` as its day offset inside 2024; ValueError
for a month outside 1..12. -/
def dateOrdinal (m : ℕ) : Except PyError ℤ :=
  if 1 ≤ m ∧ m ≤ 12 then Except.ok (monthOffset m : ℤ) else Except.error PyError.valueError

/-- `np.linspace(s, e, n, endpoint=False)`: `n` evenly spaced values
`s + k·(e−s)/n` for `0 ≤ k < n`; ValueError when `n` is negative. -/
def linspaceEF (s e : ℚ) (n : ℤ) : Except PyError (List ℚ) :=
  if n < 0 then Except.error PyError.valueError
  else Except.ok ((List.range n.toNat).map fun k : ℕ => s + (k : ℚ) * (e - s) / (n : ℚ))

/-- The loop `for i in range(len(season_months) - 1)` of
`interpolate_monthly_to_daily`, processing `r` consecutive month pairs
starting at index `i`. -/
def interpFrom (md : List ℚ) (sm : List ℕ) : ℕ → ℕ → Except PyError (List ℚ)
  | _, 0 => Except.ok []
  | i, r + 1 =>
    match pyGet md i with
    | Except.error e => Except.error e
    | Except.ok s =>
      match pyGet md (i + 1) with
      | Except.error e => Except.error e
      | Except.ok e1 =>
        match pyGet sm (i + 1) with
        | Except.error e => Except.error e
        | Except.ok m1 =>
          match dateOrdinal m1 with
          | Except.error e => Except.error e
          | Except.ok o1 =>
            match pyGet sm i with
            | Except.error e => Except.error e
            | Except.ok m0 =>
              match dateOrdinal m0 with
              | Except.error e => Except.error e
              | Except.ok o0 =>
                match linspaceEF s e1 (o1 - o0) with
                | Except.error e => Except.error e
                | Except.ok vals =>
                  match interpFrom md sm (i + 1) r with
                  | Except.error e => Except.error e
                  | Except.ok rest => Except.ok (vals ++ rest)

/-- `interpolate_monthly_to_daily(monthly_data, season_months)`: the month
pair loop followed by the wraparound segment from the last season month to
December 31, 2024 (`days_in_month = (date(2024,12,31) - date(2024,m,1)).days + 1`). -/
def interpolate_monthly_to_daily (md : List ℚ) (sm : List ℕ) : Except PyError (List ℚ) :=
  match interpFrom md sm 0 (sm.length - 1) with
  | Except.error e => Except.error e
  | Except.ok body =>
    match pyLast md with
    | Except.error e => Except.error e
    | Except.ok s =>
      match pyGet md 0 with
      | Except.error e => Except.error e
      | Except.ok e1 =>
        match pyLast sm with
        | Except.error e => Except.error e
        | Except.ok mL =>
          match dateOrdinal mL with
          | Except.error e => Except.error e
          | Except.ok oL =>
            match linspaceEF s e1 (365 - oL + 1) with
            | Except.error e => Except.error e
            | Except.ok vals => Except.ok (body ++ vals.take (365 - oL + 1).toNat)

/-- Soil properties read by the scheduler (row of the "Soil" sheet). -/
structure Soil where
  field_capacity : ℚ
  wilting_point : ℚ
deriving DecidableEq, Repr

/-- One growth stage: the key and value of one entry of
`crop['growth_stages']` (insertion order preserved, hence a list). -/
structure Stage where
  name : String
  kc : ℚ
  days : ℕ
deriving DecidableEq, Repr

/-- Crop properties read by the scheduler. -/
structure Crop where
  crop_type : String
  root_depth : ℚ
  growth_stages : List Stage
deriving DecidableEq, Repr

/-- The `climatic_conditions` dictionary: monthly ETr and monthly rainfall.
The schedule only ever reads the `ETr` entry. -/
structure Climate where
  ETr : List ℚ
  Rainfall : List ℚ
deriving DecidableEq, Repr

/-- One element of the returned `schedule` list (field names follow the
dictionary keys of the source; `irrigation_required` holds the literal
string stored under `'Irrigation Required'`). -/
structure DailyRecord where
  day : ℕ
  growing_season : String
  growth_stage : String
  crop_type : String
  kc : ℚ
  eto : ℚ
  etc : ℚ
  rainfall : ℚ
  net_irrigation : ℚ
  cumulative_deficit : ℚ
  irrigation_required : String
deriving DecidableEq, Repr

instance : Inhabited DailyRecord :=
  ⟨⟨0, "", "", "", 0, 0, 0, 0, 0, 0, ""⟩⟩

/-- `calculate_et(crop_kc, etr) = etr * crop_kc`. -/
def calculate_et (crop_kc etr : ℚ) : ℚ := etr * crop_kc

/-- Python `round(x, 2)`, idealised over exact rationals: round to the
nearest multiple of 1/100. -/
def round2 (x : ℚ) : ℚ := ((round (x * 100) : ℤ) : ℚ) / 100

/-- `max_allowable_depletion = 0.7 * (field_capacity - wilting_point) *
root_depth * 10` (source line 73). -/
def max_allowable_depletion (soil : Soil) (crop : Crop) : ℚ :=
  0.7 * (soil.field_capacity - soil.wilting_point) * crop.root_depth * 10

/-- The irrigation decision of lines 100–108: given the threshold and the
updated cumulative deficit, returns `(irrigation_required,
daily_irrigation_req, cumulative_soil_water_deficit after the day)`. -/
def irrigationDecision (mad cum1 : ℚ) : Bool × ℚ × ℚ :=
  if cum1 > mad then (true, mad, 0) else (false, 0, cum1)

/-- One day of the stage loop body (lines 82–123): computes ETc, effective
rainfall, the day's soil water deficit, applies the irrigation decision and
builds the day's schedule record.  Returns the record together with the
cumulative deficit carried into the next day. -/
def mkDay (ct sn : String) (kc mad : ℚ) (dc : ℕ) (eto rn cum : ℚ) : DailyRecord × ℚ :=
  let etcv := calculate_et kc eto
  let effective_rainfall := max (rn - 0) 0
  let soil_water_deficit := effective_rainfall - etcv
  let cum1 := cum + soil_water_deficit
  let dec := irrigationDecision mad cum1
  (⟨dc, "Kharif", sn, ct, kc, eto, etcv, rn, round2 dec.2.1, round2 dec.2.2,
    if dec.1 then "Yes" else "No"⟩, dec.2.2)

/-- The inner `for day in range(days)` loop: processes `d` days of a stage
whose name is `sn` and coefficient `kc`, starting at day count `dc` with
carried cumulative deficit `cum`.  Returns the day records together with
the final day count and carried deficit.  Reading a daily series out of
range raises IndexError, exactly as `daily_etr[day_count - 1]` does. -/
def simStage (ct sn : String) (kc mad : ℚ) (etr rain : List ℚ) :
    ℕ → ℕ → ℚ → Except PyError (List DailyRecord × ℕ × ℚ)
  | 0, dc, cum => Except.ok ([], dc, cum)
  | d + 1, dc, cum =>
    match pyGet etr (dc - 1) with
    | Except.error e => Except.error e
    | Except.ok eto =>
      match pyGet rain (dc - 1) with
      | Except.error e => Except.error e
      | Except.ok rn =>
        match simStage ct sn kc mad etr rain d (dc + 1) (mkDay ct sn kc mad dc eto rn cum).2 with
        | Except.error e => Except.error e
        | Except.ok out => Except.ok ((mkDay ct sn kc mad dc eto rn cum).1 :: out.1, out.2)

/-- The outer `for stage, properties in crop['growth_stages'].items()` loop,
threading the day count and the cumulative deficit across stages. -/
def simStages (ct : String) (mad : ℚ) (etr rain : List ℚ) :
    List Stage → ℕ → ℚ → Except PyError (List DailyRecord)
  | [], _, _ => Except.ok []
  | st :: rest, dc, cum =>
    match simStage ct st.name st.kc mad etr rain st.days dc cum with
    | Except.error e => Except.error e
    | Except.ok out =>
      match simStages ct mad etr rain rest out.2.1 out.2.2 with
      | Except.error e => Except.error e
      | Except.ok more => Except.ok (out.1 ++ more)

/-- `daily_irrigation_schedule(soil, crop, climate, season_months,
rainfall_data)`: interpolates `climate['ETr']` and `rainfall_data` to daily
series, then runs the stage loops with `day_count = 1` and
`cumulative_soil_water_deficit = 0`.  `climate['Rainfall']` is never read. -/
def daily_irrigation_schedule (soil : Soil) (crop : Crop) (climate : Climate)
    (season_months : List ℕ) (rainfall_data : List ℚ) : Except PyError (List DailyRecord) :=
  match interpolate_monthly_to_daily climate.ETr season_months with
  | Except.error e => Except.error e
  | Except.ok daily_etr =>
    match interpolate_monthly_to_daily rainfall_data season_months with
    | Except.error e => Except.error e
    | Except.ok daily_rainfall =>
      simStages crop.crop_type (max_allowable_depletion soil crop) daily_etr daily_rainfall
        crop.growth_stages 1 0

/-! ### Reference functions used to state properties of the simulation -/

/-- The flattened sequence of simulated days: each stage contributes
`days` copies of its `(name, kc)` pair, in declared stage order. -/
def flattenStages (stages : List Stage) : List (String × ℚ) :=
  stages.flatMap fun st => List.replicate st.days (st.name, st.kc)

/-- Total number of days declared by the growth stages. -/
def totalDays (stages : List Stage) : ℕ := (stages.map Stage.days).sum

/-- The state update of the cumulative soil water deficit for one day with
deficit `d`: add, then reset to zero when the trigger fires. -/
def stepCum (mad c d : ℚ) : ℚ := if c + d > mad then 0 else c + d

/-- The cumulative deficit carried into day `t` (0-based), starting from
`c` and consuming the per-day deficits `ds`. -/
def preCumFrom (mad : ℚ) : ℚ → List ℚ → ℕ → ℚ
  | c, _, 0 => c
  | c, [], _ + 1 => c
  | c, d :: ds, t + 1 => preCumFrom mad (stepCum mad c d) ds t

/-- The cumulative deficit carried into day `t` of a season that starts
with deficit 0. -/
def preCum (mad : ℚ) (ds : List ℚ) (t : ℕ) : ℚ := preCumFrom mad 0 ds t

/-- The per-day soil water deficits determined by the daily series and the
flattened day sequence, where day-count `dc` is the 1-based day of the
first entry (the series index of day `j` is `dc + j - 1`). -/
def deficitsFrom (etr rain : List ℚ) : List (String × ℚ) → ℕ → List ℚ
  | [], _ => []
  | p :: rest, dc =>
    (max (rain.getD (dc - 1) 0 - 0) 0 - calculate_et p.2 (etr.getD (dc - 1) 0)) ::
      deficitsFrom etr rain rest (dc + 1)

/-- The per-day soil water deficits of a whole season starting at day 1. -/
def seasonDeficits (etr rain : List ℚ) (stages : List Stage) : List ℚ :=
  deficitsFrom etr rain (flattenStages stages) 1

/-- Day `t` (0-based) fires the irrigation trigger. -/
def dayTrig (mad : ℚ) (ds : List ℚ) (t : ℕ) : Prop :=
  preCum mad ds t + ds.getD t 0 > mad

/-- Total mirror of the day loop over the flattened day sequence, reading
the daily series with a default of 0 instead of failing: used to
characterise successful runs of `simStage`/`simStages`. -/
def buildRun (ct : String) (mad : ℚ) (etr rain : List ℚ) :
    List (String × ℚ) → ℕ → ℚ → List DailyRecord × ℕ × ℚ
  | [], dc, cum => ([], dc, cum)
  | p :: rest, dc, cum =>
    let d := mkDay ct p.1 p.2 mad dc (etr.getD (dc - 1) 0) (rain.getD (dc - 1) 0) cum
    let q := buildRun ct mad etr rain rest (dc + 1) d.2
    (d.1 :: q.1, q.2)

/-! ### Reference functions for the interpolation structure -/

/-- One endpoint-position-excluded linear segment: the `n` values
`s + k·(e−s)/n` for `0 ≤ k < n`. -/
def linSegment (s e : ℚ) (n : ℕ) : List ℚ :=
  (List.range n).map fun k : ℕ => s + (k : ℚ) * (e - s) / (n : ℚ)

/-- The segments produced by the month-pair loop for `r` pairs starting at
index `i`. -/
def specBody (md : List ℚ) (sm : List ℕ) : ℕ → ℕ → List (List ℚ)
  | _, 0 => []
  | i, r + 1 =>
    linSegment (md.getD i 0) (md.getD (i + 1) 0)
        (monthOffset (sm.getD (i + 1) 1) - monthOffset (sm.getD i 1)) ::
      specBody md sm (i + 1) r

/-- The wraparound segment from the last season month to December 31. -/
def wrapSegment (md : List ℚ) (sm : List ℕ) : List ℚ :=
  linSegment (md.getLast?.getD 0) (md.getD 0 0) (366 - monthOffset (sm.getLast?.getD 1))

/-- All interpolation segments of a valid input, in order. -/
def specSegments (md : List ℚ) (sm : List ℕ) : List (List ℚ) :=
  specBody md sm 0 (sm.length - 1) ++ [wrapSegment md sm]

/-! ### Basic lemmas -/

theorem pyGet_ok_getD {α : Type} {xs : List α} {i : ℕ} {a : α} (d : α)
    (h : pyGet xs i = Except.ok a) : xs.getD i d = a := by
  unfold pyGet at h
  cases hq : xs[i]? with
  | none => rw [hq] at h; cases h
  | some v => rw [hq] at h; injection h with h; subst h; simp [List.getD_eq_getElem?_getD, hq]

theorem pyGet_of_lt {α : Type} (xs : List α) (i : ℕ) (d : α) (h : i < xs.length) :
    pyGet xs i = Except.ok (xs.getD i d) := by
  unfold pyGet
  rw [List.getElem?_eq_getElem h]
  simp [List.getD_eq_getElem?_getD, List.getElem?_eq_getElem h]

theorem pyGet_err {α : Type} (xs : List α) (i : ℕ) (h : xs.length ≤ i) :
    pyGet xs i = Except.error PyError.indexError := by
  unfold pyGet
  rw [List.getElem?_eq_none h]

theorem round2_zero : round2 0 = 0 := by
  simp [round2]

theorem stepCum_pos {mad c d : ℚ} (h : c + d > mad) : stepCum mad c d = 0 := by
  simp [stepCum, h]

theorem stepCum_neg {mad c d : ℚ} (h : ¬ c + d > mad) : stepCum mad c d = c + d := by
  simp only [stepCum, if_neg h]

theorem mkDay_snd (ct sn : String) (kc mad : ℚ) (dc : ℕ) (eto rn cum : ℚ) :
    (mkDay ct sn kc mad dc eto rn cum).2 =
      stepCum mad cum (max (rn - 0) 0 - calculate_et kc eto) := by
  simp only [mkDay, irrigationDecision, stepCum]
  split <;> rfl

theorem mkDay_required (ct sn : String) (kc mad : ℚ) (dc : ℕ) (eto rn cum : ℚ) :
    (mkDay ct sn kc mad dc eto rn cum).1.irrigation_required =
      if cum + (max (rn - 0) 0 - calculate_et kc eto) > mad then "Yes" else "No" := by
  simp only [mkDay, irrigationDecision]
  split <;> rfl

theorem mkDay_net (ct sn : String) (kc mad : ℚ) (dc : ℕ) (eto rn cum : ℚ) :
    (mkDay ct sn kc mad dc eto rn cum).1.net_irrigation =
      round2 (if cum + (max (rn - 0) 0 - calculate_et kc eto) > mad then mad else 0) := by
  simp only [mkDay, irrigationDecision]
  split <;> rfl

theorem mkDay_cumd (ct sn : String) (kc mad : ℚ) (dc : ℕ) (eto rn cum : ℚ) :
    (mkDay ct sn kc mad dc eto rn cum).1.cumulative_deficit =
      round2 (stepCum mad cum (max (rn - 0) 0 - calculate_et kc eto)) := by
  simp only [mkDay, irrigationDecision, stepCum]
  split <;> rfl

/-! ### Characterisation of successful simulator runs -/

theorem simStage_ok (ct sn : String) (kc mad : ℚ) (etr rain : List ℚ) :
    ∀ (d dc : ℕ) (cum : ℚ) (out : List DailyRecord × ℕ × ℚ),
      simStage ct sn kc mad etr rain d dc cum = Except.ok out →
      out = buildRun ct mad etr rain (List.replicate d (sn, kc)) dc cum := by
  intro d
  induction d with
  | zero =>
    intro dc cum out h
    simp only [simStage] at h
    injection h with h
    subst h
    rfl
  | succ d ih =>
    intro dc cum out h
    rw [simStage] at h
    cases hE : pyGet etr (dc - 1) with
    | error e => rw [hE] at h; cases h
    | ok eto =>
      rw [hE] at h
      dsimp only at h
      cases hR : pyGet rain (dc - 1) with
      | error e => rw [hR] at h; cases h
      | ok rn =>
        rw [hR] at h
        dsimp only at h
        cases hS : simStage ct sn kc mad etr rain d (dc + 1) (mkDay ct sn kc mad dc eto rn cum).2 with
        | error e => rw [hS] at h; cases h
        | ok out1 =>
          rw [hS] at h
          dsimp only at h
          injection h with h
          subst h
          have hx := ih (dc + 1) (mkDay ct sn kc mad dc eto rn cum).2 out1 hS
          have hE2 : etr.getD (dc - 1) 0 = eto := pyGet_ok_getD 0 hE
          have hR2 : rain.getD (dc - 1) 0 = rn := pyGet_ok_getD 0 hR
          rw [List.replicate_succ]
          simp only [buildRun, hE2, hR2]
          rw [hx]

theorem buildRun_append (ct : String) (mad : ℚ) (etr rain : List ℚ) :
    ∀ (l1 l2 : List (String × ℚ)) (dc : ℕ) (cum : ℚ),
      buildRun ct mad etr rain (l1 ++ l2) dc cum =
        ((buildRun ct mad etr rain l1 dc cum).1 ++
          (buildRun ct mad etr rain l2 (buildRun ct mad etr rain l1 dc cum).2.1
            (buildRun ct mad etr rain l1 dc cum).2.2).1,
         (buildRun ct mad etr rain l2 (buildRun ct mad etr rain l1 dc cum).2.1
            (buildRun ct mad etr rain l1 dc cum).2.2).2) := by
  intro l1
  induction l1 with
  | nil => intro l2 dc cum; simp only [List.nil_append, buildRun]
  | cons p rest ih =>
    intro l2 dc cum
    simp only [List.cons_append, buildRun, List.append_eq]
    rw [ih]

theorem simStages_ok (ct : String) (mad : ℚ) (etr rain : List ℚ) :
    ∀ (stages : List Stage) (dc : ℕ) (cum : ℚ) (recs : List DailyRecord),
      simStages ct mad etr rain stages dc cum = Except.ok recs →
      recs = (buildRun ct mad etr rain (flattenStages stages) dc cum).1 := by
  intro stages
  induction stages with
  | nil =>
    intro dc cum recs h
    simp only [simStages] at h
    injection h with h
    subst h
    rfl
  | cons st rest ih =>
    intro dc cum recs h
    rw [simStages] at h
    cases hS : simStage ct st.name st.kc mad etr rain st.days dc cum with
    | error e => rw [hS] at h; cases h
    | ok out =>
      rw [hS] at h
      dsimp only at h
      cases hM : simStages ct mad etr rain rest out.2.1 out.2.2 with
      | error e => rw [hM] at h; cases h
      | ok more =>
        rw [hM] at h
        dsimp only at h
        injection h with h
        subst h
        have h1 := simStage_ok ct st.name st.kc mad etr rain st.days dc cum out hS
        have h2 := ih out.2.1 out.2.2 more hM
        have hflat : flattenStages (st :: rest) =
            List.replicate st.days (st.name, st.kc) ++ flattenStages rest := by
          simp [flattenStages]
        rw [hflat, buildRun_append, h2, h1]

theorem buildRun_fst_length (ct : String) (mad : ℚ) (etr rain : List ℚ) :
    ∀ (flat : List (String × ℚ)) (dc : ℕ) (cum : ℚ),
      (buildRun ct mad etr rain flat dc cum).1.length = flat.length := by
  intro flat
  induction flat with
  | nil => intro dc cum; rfl
  | cons p rest ih => intro dc cum; simp only [buildRun, List.length_cons, ih]

theorem deficitsFrom_length (etr rain : List ℚ) :
    ∀ (flat : List (String × ℚ)) (dc : ℕ),
      (deficitsFrom etr rain flat dc).length = flat.length := by
  intro flat
  induction flat with
  | nil => intro dc; rfl
  | cons p rest ih => intro dc; simp only [deficitsFrom, List.length_cons, ih]

theorem preCumFrom_succ (mad : ℚ) :
    ∀ (ds : List ℚ) (c : ℚ) (t : ℕ), t < ds.length →
      preCumFrom mad c ds (t + 1) = stepCum mad (preCumFrom mad c ds t) (ds.getD t 0) := by
  intro ds
  induction ds with
  | nil => intro c t ht; cases ht
  | cons d ds ih =>
    intro c t ht
    cases t with
    | zero => simp [preCumFrom]
    | succ t =>
      have ht2 : t < ds.length := by simpa using ht
      simp only [preCumFrom]
      rw [ih (stepCum mad c d) t ht2]
      rfl

theorem deficitsFrom_getD (etr rain : List ℚ) :
    ∀ (flat : List (String × ℚ)) (dc t : ℕ), t < flat.length →
      (deficitsFrom etr rain flat dc).getD t 0 =
        max (rain.getD (dc + t - 1) 0 - 0) 0 -
          calculate_et (flat.getD t ("", 0)).2 (etr.getD (dc + t - 1) 0) := by
  intro flat
  induction flat with
  | nil => intro dc t ht; cases ht
  | cons p rest ih =>
    intro dc t ht
    cases t with
    | zero => simp [deficitsFrom]
    | succ t =>
      have ht2 : t < rest.length := by simpa using ht
      have harith : dc + (t + 1) - 1 = dc + 1 + t - 1 := by omega
      simp only [deficitsFrom, List.getD_cons_succ]
      rw [ih (dc + 1) t ht2, harith]

theorem buildRun_getD (ct : String) (mad : ℚ) (etr rain : List ℚ) :
    ∀ (flat : List (String × ℚ)) (dc : ℕ) (cum : ℚ) (t : ℕ), t < flat.length →
      (buildRun ct mad etr rain flat dc cum).1.getD t default =
        (mkDay ct (flat.getD t ("", 0)).1 (flat.getD t ("", 0)).2 mad (dc + t)
          (etr.getD (dc + t - 1) 0) (rain.getD (dc + t - 1) 0)
          (preCumFrom mad cum (deficitsFrom etr rain flat dc) t)).1 := by
  intro flat
  induction flat with
  | nil => intro dc cum t ht; cases ht
  | cons p rest ih =>
    intro dc cum t ht
    cases t with
    | zero => simp [buildRun, preCumFrom]
    | succ t =>
      have ht2 : t < rest.length := by simpa using ht
      have harith : dc + (t + 1) = dc + 1 + t := by omega
      have harith2 : dc + (t + 1) - 1 = dc + 1 + t - 1 := by omega
      simp only [buildRun, List.getD_cons_succ]
      rw [ih (dc + 1) (mkDay ct p.1 p.2 mad dc (etr.getD (dc - 1) 0) (rain.getD (dc - 1) 0) cum).2 t ht2]
      rw [mkDay_snd]
      simp only [deficitsFrom, preCumFrom, List.getD_cons_succ, harith, harith2]

theorem simStages_length (ct : String) (mad : ℚ) (etr rain : List ℚ)
    (stages : List Stage) (dc : ℕ) (cum : ℚ) (recs : List DailyRecord)
    (h : simStages ct mad etr rain stages dc cum = Except.ok recs) :
    recs.length = (flattenStages stages).length := by
  rw [simStages_ok ct mad etr rain stages dc cum recs h, buildRun_fst_length]

theorem simStages_deficits_lt (ct : String) (mad : ℚ) (etr rain : List ℚ)
    (stages : List Stage) (dc : ℕ) (cum : ℚ) (recs : List DailyRecord)
    (h : simStages ct mad etr rain stages dc cum = Except.ok recs)
    (t : ℕ) (ht : t < recs.length) : t < (seasonDeficits etr rain stages).length := by
  rw [seasonDeficits, deficitsFrom_length]
  rw [← simStages_length ct mad etr rain stages dc cum recs h]
  exact ht

theorem simStages_getD (ct : String) (mad : ℚ) (etr rain : List ℚ)
    (stages : List Stage) (recs : List DailyRecord)
    (h : simStages ct mad etr rain stages 1 0 = Except.ok recs)
    (t : ℕ) (ht : t < recs.length) :
    recs.getD t default =
      (mkDay ct ((flattenStages stages).getD t ("", 0)).1
        ((flattenStages stages).getD t ("", 0)).2 mad (1 + t)
        (etr.getD t 0) (rain.getD t 0)
        (preCum mad (seasonDeficits etr rain stages) t)).1 := by
  have hl : t < (flattenStages stages).length := by
    rw [← simStages_length ct mad etr rain stages 1 0 recs h]; exact ht
  have harith : 1 + t - 1 = t := by omega
  rw [simStages_ok ct mad etr rain stages 1 0 recs h,
    buildRun_getD ct mad etr rain (flattenStages stages) 1 0 t hl, harith]
  rfl

/-! ### Claim C1 -/

/-- Claim C1: on every simulated day, the record marks irrigation as
required exactly when the cumulative deficit after adding that day's soil
water deficit strictly exceeds `max_allowable_depletion`; on such a day the
applied net irrigation is the threshold (the record stores its 2-decimal
rounding) and the deficit carried into the next day is exactly 0, and on
every other day the recorded net irrigation is 0 and the updated cumulative
deficit is carried forward unchanged. -/
theorem trigger_iff_and_reset (ct : String) (mad : ℚ) (etr rain : List ℚ)
    (stages : List Stage) (recs : List DailyRecord)
    (h : simStages ct mad etr rain stages 1 0 = Except.ok recs)
    (t : ℕ) (ht : t < recs.length) :
    ((recs.getD t default).irrigation_required = "Yes" ↔
        preCum mad (seasonDeficits etr rain stages) t +
          (seasonDeficits etr rain stages).getD t 0 > mad)
    ∧ (preCum mad (seasonDeficits etr rain stages) t +
          (seasonDeficits etr rain stages).getD t 0 > mad →
        (recs.getD t default).net_irrigation = round2 mad ∧
        preCum mad (seasonDeficits etr rain stages) (t + 1) = 0)
    ∧ (¬ preCum mad (seasonDeficits etr rain stages) t +
          (seasonDeficits etr rain stages).getD t 0 > mad →
        (recs.getD t default).net_irrigation = 0 ∧
        preCum mad (seasonDeficits etr rain stages) (t + 1) =
          preCum mad (seasonDeficits etr rain stages) t +
            (seasonDeficits etr rain stages).getD t 0) := by
  have hlen : t < (flattenStages stages).length := by
    rw [← simStages_length ct mad etr rain stages 1 0 recs h]; exact ht
  have hds : t < (seasonDeficits etr rain stages).length :=
    simStages_deficits_lt ct mad etr rain stages 1 0 recs h t ht
  have hrec := simStages_getD ct mad etr rain stages recs h t ht
  have harith : 1 + t - 1 = t := by omega
  have hd0 : (seasonDeficits etr rain stages).getD t 0 =
      max (rain.getD t 0 - 0) 0 -
        calculate_et ((flattenStages stages).getD t ("", 0)).2 (etr.getD t 0) := by
    rw [seasonDeficits, deficitsFrom_getD etr rain (flattenStages stages) 1 t hlen, harith]
  have hsucc := preCumFrom_succ mad (seasonDeficits etr rain stages) 0 t hds
  refine ⟨?_, ?_, ?_⟩
  · rw [hrec, mkDay_required, ← hd0]
    by_cases hc : preCum mad (seasonDeficits etr rain stages) t +
        (seasonDeficits etr rain stages).getD t 0 > mad
    · simp only [if_pos hc]
      simpa using hc
    · simp only [if_neg hc]
      constructor
      · intro hno; exact absurd hno (by decide)
      · intro hx; exact absurd hx hc
  · intro hc
    constructor
    · rw [hrec, mkDay_net, ← hd0, if_pos hc]
    · show preCumFrom mad 0 (seasonDeficits etr rain stages) (t + 1) = 0
      rw [hsucc]
      exact stepCum_pos hc
  · intro hc
    constructor
    · rw [hrec, mkDay_net, ← hd0, if_neg hc]
      exact round2_zero
    · show preCumFrom mad 0 (seasonDeficits etr rain stages) (t + 1) = _
      rw [hsucc]
      exact stepCum_neg hc

/-- Concrete instance of C1: one day with kc 1, ETo 0, rainfall 5 and
threshold 1 triggers irrigation, records net irrigation 1 and resets the
carried deficit to 0. -/
theorem trigger_iff_and_reset_witness :
    ((([⟨1, "Kharif", "s", "c", 1, 0, 0, 5, 1, 0, "Yes"⟩] : List DailyRecord).getD 0
          default).irrigation_required = "Yes" ↔
        preCum 1 (seasonDeficits [0] [5] [⟨("s"), 1, 1⟩]) 0 +
          (seasonDeficits [0] [5] [⟨("s"), 1, 1⟩]).getD 0 0 > 1)
    ∧ (preCum 1 (seasonDeficits [0] [5] [⟨("s"), 1, 1⟩]) 0 +
          (seasonDeficits [0] [5] [⟨("s"), 1, 1⟩]).getD 0 0 > 1 →
        (([⟨1, "Kharif", "s", "c", 1, 0, 0, 5, 1, 0, "Yes"⟩] : List DailyRecord).getD 0
            default).net_irrigation = round2 1 ∧
        preCum 1 (seasonDeficits [0] [5] [⟨("s"), 1, 1⟩]) 1 = 0)
    ∧ (¬ preCum 1 (seasonDeficits [0] [5] [⟨("s"), 1, 1⟩]) 0 +
          (seasonDeficits [0] [5] [⟨("s"), 1, 1⟩]).getD 0 0 > 1 →
        (([⟨1, "Kharif", "s", "c", 1, 0, 0, 5, 1, 0, "Yes"⟩] : List DailyRecord).getD 0
            default).net_irrigation = 0 ∧
        preCum 1 (seasonDeficits [0] [5] [⟨("s"), 1, 1⟩]) 1 =
          preCum 1 (seasonDeficits [0] [5] [⟨("s"), 1, 1⟩]) 0 +
            (seasonDeficits [0] [5] [⟨("s"), 1, 1⟩]).getD 0 0) :=
  trigger_iff_and_reset ("c") 1 [0] [5] [⟨("s"), 1, 1⟩]
    [⟨1, "Kharif", "s", "c", 1, 0, 0, 5, 1, 0, "Yes"⟩]
    (by norm_num [simStages, simStage, mkDay, irrigationDecision, pyGet, calculate_et,
      round2, round_eq]) 0 (by norm_num)

/-! ### Claim C4 -/

theorem preCumFrom_zero (mad c : ℚ) (ds : List ℚ) : preCumFrom mad c ds 0 = c := by
  cases ds <;> rfl

theorem preCum_zero (mad : ℚ) (ds : List ℚ) : preCum mad ds 0 = 0 :=
  preCumFrom_zero mad 0 ds

theorem getD_take_sum (ds : List ℚ) (t : ℕ) (ht : t < ds.length) :
    (ds.take (t + 1)).sum = (ds.take t).sum + ds.getD t 0 := by
  rw [List.take_succ, List.sum_append]
  congr 1
  rw [List.getElem?_eq_getElem ht]
  simp [List.getD_eq_getElem?_getD, List.getElem?_eq_getElem ht]

theorem getD_drop (ds : List ℚ) (n k : ℕ) : (ds.drop n).getD k 0 = ds.getD (n + k) 0 := by
  simp [List.getD_eq_getElem?_getD, List.getElem?_drop]

theorem preCum_sum_of_no_trigger (mad : ℚ) (ds : List ℚ) :
    ∀ (t : ℕ), t < ds.length → (∀ j, j ≤ t → ¬ dayTrig mad ds j) →
      preCum mad ds (t + 1) = (ds.take (t + 1)).sum := by
  intro t
  induction t with
  | zero =>
    intro ht hno
    have h1 : preCum mad ds (0 + 1) = stepCum mad (preCum mad ds 0) (ds.getD 0 0) :=
      preCumFrom_succ mad ds 0 0 ht
    have hnt : ¬ preCum mad ds 0 + ds.getD 0 0 > mad := hno 0 (le_refl 0)
    rw [h1, stepCum_neg hnt, getD_take_sum ds 0 ht, preCum_zero]
    simp
  | succ t ih =>
    intro ht hno
    have ht2 : t < ds.length := Nat.lt_of_succ_lt ht
    have h1 : preCum mad ds (t + 1 + 1) = stepCum mad (preCum mad ds (t + 1)) (ds.getD (t + 1) 0) :=
      preCumFrom_succ mad ds 0 (t + 1) ht
    have hnt : ¬ preCum mad ds (t + 1) + ds.getD (t + 1) 0 > mad := hno (t + 1) (le_refl _)
    rw [h1, stepCum_neg hnt, ih ht2 (fun j hj => hno j (Nat.le_succ_of_le hj)),
      getD_take_sum ds (t + 1) ht]

theorem preCum_sum_after_trigger (mad : ℚ) (ds : List ℚ) (r : ℕ) (hr : dayTrig mad ds r) :
    ∀ (k : ℕ), r + k < ds.length → (∀ j, r < j → j ≤ r + k → ¬ dayTrig mad ds j) →
      preCum mad ds (r + k + 1) = ((ds.drop (r + 1)).take k).sum := by
  intro k
  induction k with
  | zero =>
    intro hk hno
    have h1 : preCum mad ds (r + 1) = stepCum mad (preCum mad ds r) (ds.getD r 0) :=
      preCumFrom_succ mad ds 0 r (by simpa using hk)
    simp only [Nat.add_zero] at *
    rw [h1, stepCum_pos hr]
    simp
  | succ k ih =>
    intro hk hno
    have hk2 : r + k < ds.length := by omega
    have hk3 : r + k + 1 < ds.length := by omega
    have h1 : preCum mad ds (r + k + 1 + 1) =
        stepCum mad (preCum mad ds (r + k + 1)) (ds.getD (r + k + 1) 0) :=
      preCumFrom_succ mad ds 0 (r + k + 1) hk3
    have harith : r + (k + 1) = r + k + 1 := rfl
    rw [harith, h1]
    have hnt : ¬ preCum mad ds (r + k + 1) + ds.getD (r + k + 1) 0 > mad :=
      hno (r + k + 1) (by omega) (by omega)
    rw [stepCum_neg hnt, ih hk2 (fun j hj1 hj2 => hno j hj1 (by omega))]
    have hlen : k < (ds.drop (r + 1)).length := by
      rw [List.length_drop]; omega
    rw [getD_take_sum (ds.drop (r + 1)) k hlen, getD_drop]
    have harith2 : r + 1 + k = r + k + 1 := by omega
    rw [harith2]

/-- Claim C4: the cumulative deficit carried by the simulation is the sum
of the per-day soil water deficits since the most recent irrigation
trigger (or since the season start when none has fired), and the running
sum is threaded over the flattened day sequence across stage boundaries:
each record stores the 2-decimal rounding of the carried value, and the
carried value is the plain sum over the days since the last reset. -/
theorem cumulative_deficit_running_sum (ct : String) (mad : ℚ) (etr rain : List ℚ)
    (stages : List Stage) (recs : List DailyRecord)
    (h : simStages ct mad etr rain stages 1 0 = Except.ok recs) :
    (∀ t, t < recs.length →
      (recs.getD t default).cumulative_deficit =
        round2 (preCum mad (seasonDeficits etr rain stages) (t + 1)))
    ∧ (∀ t, t < (seasonDeficits etr rain stages).length →
        (∀ j, j ≤ t → ¬ dayTrig mad (seasonDeficits etr rain stages) j) →
        preCum mad (seasonDeficits etr rain stages) (t + 1) =
          ((seasonDeficits etr rain stages).take (t + 1)).sum)
    ∧ (∀ r t, r < t → t < (seasonDeficits etr rain stages).length →
        dayTrig mad (seasonDeficits etr rain stages) r →
        (∀ j, r < j → j ≤ t → ¬ dayTrig mad (seasonDeficits etr rain stages) j) →
        preCum mad (seasonDeficits etr rain stages) (t + 1) =
          (((seasonDeficits etr rain stages).drop (r + 1)).take (t - r)).sum) := by
  refine ⟨?_, ?_, ?_⟩
  · intro t ht
    have hlen : t < (flattenStages stages).length := by
      rw [← simStages_length ct mad etr rain stages 1 0 recs h]; exact ht
    have hds : t < (seasonDeficits etr rain stages).length :=
      simStages_deficits_lt ct mad etr rain stages 1 0 recs h t ht
    have hrec := simStages_getD ct mad etr rain stages recs h t ht
    have harith : 1 + t - 1 = t := by omega
    have hd0 : (seasonDeficits etr rain stages).getD t 0 =
        max (rain.getD t 0 - 0) 0 -
          calculate_et ((flattenStages stages).getD t ("", 0)).2 (etr.getD t 0) := by
      rw [seasonDeficits, deficitsFrom_getD etr rain (flattenStages stages) 1 t hlen, harith]
    have hsucc : preCum mad (seasonDeficits etr rain stages) (t + 1) =
        stepCum mad (preCum mad (seasonDeficits etr rain stages) t)
          ((seasonDeficits etr rain stages).getD t 0) :=
      preCumFrom_succ mad (seasonDeficits etr rain stages) 0 t hds
    rw [hrec, mkDay_cumd, ← hd0, hsucc]
  · intro t ht hno
    exact preCum_sum_of_no_trigger mad (seasonDeficits etr rain stages) t ht hno
  · intro r t hrt ht htrig hno
    have hx := preCum_sum_after_trigger mad (seasonDeficits etr rain stages) r htrig (t - r)
      (by omega) (fun j h1 h2 => hno j h1 (by omega))
    have harith : r + (t - r) = t := by omega
    rw [harith] at hx
    exact hx

/-- Concrete instance of C4: with threshold 1, daily ETo [0,2,3], daily
rainfall [5,0,0] and a single 3-day stage with kc 1, day 1 triggers, and
the carried deficit entering day 4 equals the sum of the day-2 and day-3
deficits since the day-1 reset. -/
theorem cumulative_deficit_running_sum_witness :
    (([⟨1, "Kharif", "s", "c", 1, 0, 0, 5, 1, 0, "Yes"⟩,
       ⟨2, "Kharif", "s", "c", 1, 2, 2, 0, 0, -2, "No"⟩,
       ⟨3, "Kharif", "s", "c", 1, 3, 3, 0, 0, -5, "No"⟩] : List DailyRecord).getD 0
        default).cumulative_deficit =
      round2 (preCum 1 (seasonDeficits [0, 2, 3] [5, 0, 0] [⟨("s"), 1, 3⟩]) 1)
    ∧ preCum 1 (seasonDeficits [0, 2, 3] [5, 0, 0] [⟨("s"), 1, 3⟩]) 3 =
      (((seasonDeficits [0, 2, 3] [5, 0, 0] [⟨("s"), 1, 3⟩]).drop 1).take 2).sum := by
  have hds : seasonDeficits [0, 2, 3] [5, 0, 0] [⟨("s"), 1, 3⟩] = [5, -2, -5 + 2] := by
    norm_num [seasonDeficits, deficitsFrom, flattenStages, calculate_et]
  have hrun : simStages ("c") 1 [0, 2, 3] [5, 0, 0] [⟨("s"), 1, 3⟩] 1 0 =
      Except.ok [⟨1, "Kharif", "s", "c", 1, 0, 0, 5, 1, 0, "Yes"⟩,
        ⟨2, "Kharif", "s", "c", 1, 2, 2, 0, 0, -2, "No"⟩,
        ⟨3, "Kharif", "s", "c", 1, 3, 3, 0, 0, -5, "No"⟩] := by
    norm_num [simStages, simStage, mkDay, irrigationDecision, pyGet, calculate_et,
      round2, round_eq]
  refine ⟨(cumulative_deficit_running_sum ("c") 1 [0, 2, 3] [5, 0, 0] [⟨("s"), 1, 3⟩] _ hrun).1
      0 (by norm_num), ?_⟩
  refine (cumulative_deficit_running_sum ("c") 1 [0, 2, 3] [5, 0, 0] [⟨("s"), 1, 3⟩] _ hrun).2.2
      0 2 (by norm_num) (by rw [hds]; norm_num) ?_ ?_
  · rw [dayTrig, hds]
    norm_num [preCum, preCumFrom]
  · intro j h1 h2
    interval_cases j
    · rw [dayTrig, hds]
      norm_num [preCum, preCumFrom, stepCum]
    · rw [dayTrig, hds]
      norm_num [preCum, preCumFrom, stepCum]

/-! ### Claim C2 -/

theorem preCumFrom_nil (mad c : ℚ) : ∀ t, preCumFrom mad c [] t = c := by
  intro t; cases t <;> rfl

theorem preCumFrom_nonpos (mad : ℚ) (hmad : 0 < mad) :
    ∀ (ds : List ℚ) (c : ℚ), c ≤ 0 → (∀ d ∈ ds, d ≤ 0) →
      ∀ t, preCumFrom mad c ds t ≤ 0 := by
  intro ds
  induction ds with
  | nil => intro c hc _ t; rw [preCumFrom_nil]; exact hc
  | cons d ds ih =>
    intro c hc hall t
    cases t with
    | zero => rw [preCumFrom_zero]; exact hc
    | succ t =>
      have hd : d ≤ 0 := hall d (List.mem_cons_self d ds)
      have hcd : c + d ≤ 0 := by linarith
      have hstep : stepCum mad c d = c + d :=
        stepCum_neg (by rw [not_lt.symm] at *; exact not_lt.mpr (by linarith))
      show preCumFrom mad (stepCum mad c d) ds t ≤ 0
      rw [hstep]
      exact ih (c + d) hcd (fun x hx => hall x (List.mem_cons_of_mem d hx)) t

/-- Claim C2: when the threshold is positive and on every simulated day
the effective rainfall is at most the crop water use ETc, the simulation
never triggers irrigation: every record says irrigation is not required.
(Under the code's sign convention the cumulative deficit then never rises
above 0, so it can never exceed the positive threshold.) -/
theorem no_trigger_when_rainfall_at_most_etc (ct : String) (mad : ℚ) (etr rain : List ℚ)
    (stages : List Stage) (recs : List DailyRecord)
    (hmad : 0 < mad)
    (h : simStages ct mad etr rain stages 1 0 = Except.ok recs)
    (hday : ∀ t, t < (flattenStages stages).length →
      max (rain.getD t 0 - 0) 0 ≤
        calculate_et ((flattenStages stages).getD t ("", 0)).2 (etr.getD t 0)) :
    ∀ t, t < recs.length → (recs.getD t default).irrigation_required = "No" := by
  intro t ht
  have hlen : t < (flattenStages stages).length := by
    rw [← simStages_length ct mad etr rain stages 1 0 recs h]; exact ht
  have hds : t < (seasonDeficits etr rain stages).length :=
    simStages_deficits_lt ct mad etr rain stages 1 0 recs h t ht
  have hrec := simStages_getD ct mad etr rain stages recs h t ht
  have harith : 1 + t - 1 = t := by omega
  have hgetneg : ∀ j, j < (seasonDeficits etr rain stages).length →
      (seasonDeficits etr rain stages).getD j 0 ≤ 0 := by
    intro j hj
    have hjlen : j < (flattenStages stages).length := by
      rw [seasonDeficits, deficitsFrom_length] at hj; exact hj
    have harithj : 1 + j - 1 = j := by omega
    rw [seasonDeficits, deficitsFrom_getD etr rain (flattenStages stages) 1 j hjlen, harithj]
    have := hday j hjlen
    linarith
  have hmem : ∀ d ∈ seasonDeficits etr rain stages, d ≤ 0 := by
    intro d hd
    obtain ⟨n, hn, he⟩ := List.mem_iff_getElem.mp hd
    have hgd : (seasonDeficits etr rain stages).getD n 0 = d := by
      rw [List.getD_eq_getElem?_getD, List.getElem?_eq_getElem hn]
      simpa using he
    rw [← hgd]
    exact hgetneg n hn
  have hpre : preCum mad (seasonDeficits etr rain stages) t ≤ 0 :=
    preCumFrom_nonpos mad hmad (seasonDeficits etr rain stages) 0 (le_refl 0) hmem t
  have hd0neg : (seasonDeficits etr rain stages).getD t 0 ≤ 0 := hgetneg t hds
  have hd0 : (seasonDeficits etr rain stages).getD t 0 =
      max (rain.getD t 0 - 0) 0 -
        calculate_et ((flattenStages stages).getD t ("", 0)).2 (etr.getD t 0) := by
    rw [seasonDeficits, deficitsFrom_getD etr rain (flattenStages stages) 1 t hlen, harith]
  have hno : ¬ preCum mad (seasonDeficits etr rain stages) t +
      (seasonDeficits etr rain stages).getD t 0 > mad := by
    push_neg
    linarith
  rw [hrec, mkDay_required, ← hd0, if_neg hno]

/-- Concrete instance of C2: threshold 1.05, two days with kc 1, ETo 5,
rainfall 0: no day requires irrigation. -/
theorem no_trigger_when_rainfall_at_most_etc_witness :
    (([⟨1, "Kharif", "s", "c", 1, 5, 5, 0, 0, -5, "No"⟩,
       ⟨2, "Kharif", "s", "c", 1, 5, 5, 0, 0, -10, "No"⟩] : List DailyRecord).getD 0
        default).irrigation_required = "No" :=
  no_trigger_when_rainfall_at_most_etc ("c") (21/20) [5, 5] [0, 0] [⟨("s"), 1, 2⟩]
    [⟨1, "Kharif", "s", "c", 1, 5, 5, 0, 0, -5, "No"⟩,
     ⟨2, "Kharif", "s", "c", 1, 5, 5, 0, 0, -10, "No"⟩]
    (by norm_num)
    (by norm_num [simStages, simStage, mkDay, irrigationDecision, pyGet, calculate_et,
      round2, round_eq])
    (by
      intro t ht
      have h2 : t < 2 := by simpa [flattenStages] using ht
      interval_cases t <;> norm_num [flattenStages, calculate_et])
    0 (by norm_num)

/-! ### Claim C9 -/

/-- Claim C9: the returned schedule does not depend on the `Rainfall`
entry of the climate mapping: two calls identical except for
`climate['Rainfall']` return identical results, because the daily rainfall
series is interpolated from the separate `rainfall_data` argument and
`climate['Rainfall']` is never read. -/
theorem schedule_independent_of_climate_rainfall (soil : Soil) (crop : Crop)
    (etr rf1 rf2 : List ℚ) (sm : List ℕ) (rd : List ℚ) :
    daily_irrigation_schedule soil crop ⟨etr, rf1⟩ sm rd =
      daily_irrigation_schedule soil crop ⟨etr, rf2⟩ sm rd := rfl

/-! ### Claims C10 and C5 -/

theorem schedule_ok_inv (soil : Soil) (crop : Crop) (climate : Climate)
    (sm : List ℕ) (rd : List ℚ) (recs : List DailyRecord)
    (h : daily_irrigation_schedule soil crop climate sm rd = Except.ok recs) :
    ∃ etrD rainD, interpolate_monthly_to_daily climate.ETr sm = Except.ok etrD ∧
      interpolate_monthly_to_daily rd sm = Except.ok rainD ∧
      simStages crop.crop_type (max_allowable_depletion soil crop) etrD rainD
        crop.growth_stages 1 0 = Except.ok recs := by
  unfold daily_irrigation_schedule at h
  cases hE : interpolate_monthly_to_daily climate.ETr sm with
  | error e => rw [hE] at h; cases h
  | ok etrD =>
    rw [hE] at h
    dsimp only at h
    cases hR : interpolate_monthly_to_daily rd sm with
    | error e => rw [hR] at h; cases h
    | ok rainD =>
      rw [hR] at h
      dsimp only at h
      exact ⟨etrD, rainD, rfl, rfl, h⟩

/-- Claim C10: in every emitted record the net irrigation is either 0 or
the 2-decimal rounding of `max_allowable_depletion`, and on a day marked
as requiring irrigation the recorded cumulative deficit is 0 — the record
stores the post-reset value, never the pre-reset value that triggered. -/
theorem record_net_and_reset (soil : Soil) (crop : Crop) (climate : Climate)
    (sm : List ℕ) (rd : List ℚ) (recs : List DailyRecord)
    (h : daily_irrigation_schedule soil crop climate sm rd = Except.ok recs)
    (t : ℕ) (ht : t < recs.length) :
    ((recs.getD t default).net_irrigation = 0 ∨
      (recs.getD t default).net_irrigation = round2 (max_allowable_depletion soil crop))
    ∧ ((recs.getD t default).irrigation_required = "Yes" →
        (recs.getD t default).cumulative_deficit = 0) := by
  obtain ⟨etrD, rainD, hE, hR, hS⟩ := schedule_ok_inv soil crop climate sm rd recs h
  have hrec := simStages_getD crop.crop_type (max_allowable_depletion soil crop) etrD rainD
    crop.growth_stages recs hS t ht
  rw [hrec, mkDay_net, mkDay_required, mkDay_cumd]
  by_cases hc : preCum (max_allowable_depletion soil crop)
      (seasonDeficits etrD rainD crop.growth_stages) t +
        (max (rainD.getD t 0 - 0) 0 -
          calculate_et ((flattenStages crop.growth_stages).getD t ("", 0)).2
            (etrD.getD t 0)) > max_allowable_depletion soil crop
  · refine ⟨Or.inr ?_, ?_⟩
    · rw [if_pos hc]
    · intro _
      rw [stepCum_pos hc]
      exact round2_zero
  · refine ⟨Or.inl ?_, ?_⟩
    · rw [if_neg hc]
      exact round2_zero
    · intro hx
      rw [if_neg hc] at hx
      exact absurd hx (by decide)

set_option maxRecDepth 8000 in
theorem interp_single (x : ℚ) : interpolate_monthly_to_daily [x] [12] =
    Except.ok ((List.range 31).map fun k : ℕ => x + (k : ℚ) * (x - x) / ((31 : ℤ) : ℚ)) := by
  rfl

set_option maxRecDepth 8000 in
theorem pyGet_interp_single (x : ℚ) :
    pyGet ((List.range 31).map fun k : ℕ => x + (k : ℚ) * (x - x) / ((31 : ℤ) : ℚ)) 0 =
      Except.ok (x + ((0 : ℕ) : ℚ) * (x - x) / ((31 : ℤ) : ℚ)) := by
  rfl

/-- Concrete instance of C10: a one-day pipeline run whose single day
triggers: its net irrigation equals the rounded threshold (not 0), and its
recorded cumulative deficit is the post-reset 0. -/
theorem record_net_and_reset_witness :
    ((([⟨1, "Kharif", "initial", "cotton", 0, 0, 0, 12, 21/20, 0, "Yes"⟩] :
          List DailyRecord).getD 0 default).net_irrigation = 0 ∨
      (([⟨1, "Kharif", "initial", "cotton", 0, 0, 0, 12, 21/20, 0, "Yes"⟩] :
          List DailyRecord).getD 0 default).net_irrigation =
        round2 (max_allowable_depletion ⟨3/10, 3/20⟩ ⟨("cotton"), 1, [⟨("initial"), 0, 1⟩]⟩))
    ∧ ((([⟨1, "Kharif", "initial", "cotton", 0, 0, 0, 12, 21/20, 0, "Yes"⟩] :
          List DailyRecord).getD 0 default).irrigation_required = "Yes" →
        (([⟨1, "Kharif", "initial", "cotton", 0, 0, 0, 12, 21/20, 0, "Yes"⟩] :
          List DailyRecord).getD 0 default).cumulative_deficit = 0) :=
  record_net_and_reset ⟨3/10, 3/20⟩ ⟨("cotton"), 1, [⟨("initial"), 0, 1⟩]⟩ ⟨[0], [99]⟩
    [12] [12] [⟨1, "Kharif", "initial", "cotton", 0, 0, 0, 12, 21/20, 0, "Yes"⟩]
    (by
      unfold daily_irrigation_schedule
      rw [show (Climate.mk [0] [99]).ETr = [0] from rfl, interp_single 0]
      dsimp only
      rw [interp_single 12]
      dsimp only
      simp only [simStages, simStage, Nat.sub_self]
      rw [pyGet_interp_single 0, pyGet_interp_single 12]
      dsimp only
      norm_num [mkDay, irrigationDecision, calculate_et, max_allowable_depletion,
        round2, round_eq])
    0 (by norm_num)

/-- Claim C5: the irrigation threshold is
`0.7 * (field_capacity - wilting_point) * root_depth * 10`; for field
capacity 0.30, wilting point 0.15 and root depth 1.0 it equals 1.05; and
it is the one fixed constant used for the whole season: every record of a
successful schedule that requires irrigation applies exactly (the rounded)
`max_allowable_depletion` of the soil and crop given to the call. -/
theorem mad_formula_and_constancy :
    (∀ (soil : Soil) (crop : Crop), max_allowable_depletion soil crop =
      7 / 10 * (soil.field_capacity - soil.wilting_point) * crop.root_depth * 10)
    ∧ max_allowable_depletion ⟨0.30, 0.15⟩ ⟨("cotton"), 1, []⟩ = 1.05
    ∧ (∀ (soil : Soil) (crop : Crop) (climate : Climate) (sm : List ℕ) (rd : List ℚ)
        (recs : List DailyRecord),
        daily_irrigation_schedule soil crop climate sm rd = Except.ok recs →
        ∀ t, t < recs.length → (recs.getD t default).irrigation_required = "Yes" →
          (recs.getD t default).net_irrigation =
            round2 (max_allowable_depletion soil crop)) := by
  refine ⟨?_, ?_, ?_⟩
  · intro soil crop
    norm_num [max_allowable_depletion]
  · norm_num [max_allowable_depletion]
  · intro soil crop climate sm rd recs h t ht hyes
    obtain ⟨etrD, rainD, hE, hR, hS⟩ := schedule_ok_inv soil crop climate sm rd recs h
    have hrec := simStages_getD crop.crop_type (max_allowable_depletion soil crop) etrD rainD
      crop.growth_stages recs hS t ht
    rw [hrec, mkDay_net]
    rw [hrec, mkDay_required] at hyes
    by_cases hc : preCum (max_allowable_depletion soil crop)
        (seasonDeficits etrD rainD crop.growth_stages) t +
          (max (rainD.getD t 0 - 0) 0 -
            calculate_et ((flattenStages crop.growth_stages).getD t ("", 0)).2
              (etrD.getD t 0)) > max_allowable_depletion soil crop
    · rw [if_pos hc]
    · rw [if_neg hc] at hyes
      exact absurd hyes (by decide)

/-- Concrete instance of C5: the example soil gives threshold 1.05, and on
the triggered day of a one-day pipeline run the applied net irrigation is
exactly that threshold. -/
theorem mad_formula_and_constancy_witness :
    max_allowable_depletion ⟨0.30, 0.15⟩ ⟨("cotton"), 1, []⟩ = 1.05
    ∧ (([⟨1, "Kharif", "initial", "cotton", 0, 0, 0, 12, 21/20, 0, "Yes"⟩] :
          List DailyRecord).getD 0 default).net_irrigation =
        round2 (max_allowable_depletion ⟨3/10, 3/20⟩ ⟨("cotton"), 1, [⟨("initial"), 0, 1⟩]⟩) :=
  ⟨mad_formula_and_constancy.2.1,
   mad_formula_and_constancy.2.2 ⟨3/10, 3/20⟩ ⟨("cotton"), 1, [⟨("initial"), 0, 1⟩]⟩
    ⟨[0], [99]⟩ [12] [12]
    [⟨1, "Kharif", "initial", "cotton", 0, 0, 0, 12, 21/20, 0, "Yes"⟩]
    (by
      unfold daily_irrigation_schedule
      rw [show (Climate.mk [0] [99]).ETr = [0] from rfl, interp_single 0]
      dsimp only
      rw [interp_single 12]
      dsimp only
      simp only [simStages, simStage, Nat.sub_self]
      rw [pyGet_interp_single 0, pyGet_interp_single 12]
      dsimp only
      norm_num [mkDay, irrigationDecision, calculate_et, max_allowable_depletion,
        round2, round_eq])
    0 (by norm_num) (by norm_num)⟩

/-! ### Claim C6 -/

theorem simStage_ok_of_le (ct sn : String) (kc mad : ℚ) (etr rain : List ℚ) :
    ∀ (d dc : ℕ) (cum : ℚ), 1 ≤ dc → dc - 1 + d ≤ etr.length → dc - 1 + d ≤ rain.length →
      ∃ recs cf, simStage ct sn kc mad etr rain d dc cum = Except.ok (recs, dc + d, cf) := by
  intro d
  induction d with
  | zero =>
    intro dc cum h1 h2 h3
    exact ⟨[], cum, by simp [simStage]⟩
  | succ d ih =>
    intro dc cum hdc h2 h3
    have he : dc - 1 < etr.length := by omega
    have hr : dc - 1 < rain.length := by omega
    obtain ⟨recs, cf, hrec⟩ := ih (dc + 1)
      (mkDay ct sn kc mad dc (etr.getD (dc - 1) 0) (rain.getD (dc - 1) 0) cum).2
      (by omega) (by omega) (by omega)
    refine ⟨(mkDay ct sn kc mad dc (etr.getD (dc - 1) 0) (rain.getD (dc - 1) 0) cum).1 :: recs,
      cf, ?_⟩
    rw [simStage, pyGet_of_lt etr (dc - 1) 0 he]
    dsimp only
    rw [pyGet_of_lt rain (dc - 1) 0 hr]
    dsimp only
    rw [hrec]
    dsimp only
    have harith : dc + (d + 1) = dc + 1 + d := by omega
    rw [harith]

theorem simStage_err (ct sn : String) (kc mad : ℚ) (etr rain : List ℚ) :
    ∀ (d dc : ℕ) (cum : ℚ), 1 ≤ dc → 0 < d →
      (etr.length < dc - 1 + d ∨ rain.length < dc - 1 + d) →
      simStage ct sn kc mad etr rain d dc cum = Except.error PyError.indexError := by
  intro d
  induction d with
  | zero =>
    intro dc cum h1 h2 h3
    omega
  | succ d ih =>
    intro dc cum hdc hpos hshort
    by_cases he : etr.length ≤ dc - 1
    · rw [simStage, pyGet_err etr (dc - 1) he]
    · push_neg at he
      by_cases hr : rain.length ≤ dc - 1
      · rw [simStage, pyGet_of_lt etr (dc - 1) 0 he]
        dsimp only
        rw [pyGet_err rain (dc - 1) hr]
      · push_neg at hr
        cases d with
        | zero => rcases hshort with h | h <;> omega
        | succ d2 =>
          rw [simStage, pyGet_of_lt etr (dc - 1) 0 he]
          dsimp only
          rw [pyGet_of_lt rain (dc - 1) 0 hr]
          dsimp only
          rw [ih (dc + 1)
            (mkDay ct sn kc mad dc (etr.getD (dc - 1) 0) (rain.getD (dc - 1) 0) cum).2
            (by omega) (by omega)
            (by rcases hshort with h | h
                · left; omega
                · right; omega)]

theorem simStages_err (ct : String) (mad : ℚ) (etr rain : List ℚ) :
    ∀ (stages : List Stage) (dc : ℕ) (cum : ℚ), 1 ≤ dc →
      dc - 1 ≤ etr.length → dc - 1 ≤ rain.length →
      (etr.length < dc - 1 + totalDays stages ∨
        rain.length < dc - 1 + totalDays stages) →
      simStages ct mad etr rain stages dc cum = Except.error PyError.indexError := by
  intro stages
  induction stages with
  | nil =>
    intro dc cum h1 h2 h3 h4
    exfalso
    simp only [totalDays, List.map_nil, List.sum_nil, Nat.add_zero] at h4
    rcases h4 with h | h <;> omega
  | cons st rest ih =>
    intro dc cum hdc hI2 hI3 hshort
    have ht : totalDays (st :: rest) = st.days + totalDays rest := by
      simp [totalDays]
    by_cases hstage : etr.length < dc - 1 + st.days ∨ rain.length < dc - 1 + st.days
    · have hpos : 0 < st.days := by rcases hstage with h | h <;> omega
      rw [simStages, simStage_err ct st.name st.kc mad etr rain st.days dc cum hdc hpos hstage]
    · push_neg at hstage
      obtain ⟨recs, cf, hrec⟩ := simStage_ok_of_le ct st.name st.kc mad etr rain st.days dc cum
        hdc hstage.1 hstage.2
      rw [simStages, hrec]
      dsimp only
      rw [ih (dc + st.days) cf (by omega) (by omega) (by omega)
        (by rcases hshort with h | h
            · left; omega
            · right; omega)]

/-- Claim C6: whenever the interpolated daily ETr or daily rainfall series
is shorter than the sum of all growth-stage day counts, the simulation
fails with the index error raised by the first out-of-range subscript (no
element outside the series is ever read, since the subscript itself
raises), and the result is an error: no partial schedule is returned. -/
theorem short_series_fails (soil : Soil) (crop : Crop) (climate : Climate)
    (sm : List ℕ) (rd : List ℚ) (etrD rainD : List ℚ)
    (hE : interpolate_monthly_to_daily climate.ETr sm = Except.ok etrD)
    (hR : interpolate_monthly_to_daily rd sm = Except.ok rainD)
    (hshort : etrD.length < totalDays crop.growth_stages ∨
      rainD.length < totalDays crop.growth_stages) :
    daily_irrigation_schedule soil crop climate sm rd = Except.error PyError.indexError := by
  unfold daily_irrigation_schedule
  rw [hE]
  dsimp only
  rw [hR]
  dsimp only
  exact simStages_err crop.crop_type (max_allowable_depletion soil crop) etrD rainD
    crop.growth_stages 1 0 (le_refl 1) (by omega) (by omega)
    (by simpa using hshort)

/-- Concrete instance of C6: a 40-day crop over a December-only season
(31 interpolated days) makes the schedule fail with the index error. -/
theorem short_series_fails_witness :
    daily_irrigation_schedule ⟨3/10, 3/20⟩ ⟨("cotton"), 1, [⟨("initial"), 1, 40⟩]⟩
      ⟨[1], [9]⟩ [12] [2] = Except.error PyError.indexError :=
  short_series_fails ⟨3/10, 3/20⟩ ⟨("cotton"), 1, [⟨("initial"), 1, 40⟩]⟩ ⟨[1], [9]⟩ [12] [2]
    ((List.range 31).map fun k : ℕ => 1 + (k : ℚ) * ((1 : ℚ) - 1) / ((31 : ℤ) : ℚ))
    ((List.range 31).map fun k : ℕ => 2 + (k : ℚ) * ((2 : ℚ) - 2) / ((31 : ℤ) : ℚ))
    (by rw [show (Climate.mk [1] [9]).ETr = [1] from rfl]; exact interp_single 1)
    (interp_single 2)
    (by
      left
      rw [List.length_map, List.length_range]
      simp only [totalDays, List.map_cons, List.map_nil, List.sum_cons, List.sum_nil]
      omega)

/-! ### Claim C7 -/

theorem monthOffset_le_335 : ∀ m, m < 13 → monthOffset m ≤ 335 := by decide

theorem monthOffset_strict : ∀ b, b < 13 → ∀ a, a < b → 1 ≤ a →
    monthOffset a < monthOffset b := by decide

set_option maxRecDepth 200000 in
/-- Counterexample to C7 as stated: for the malformed input of a length-1
monthly series (N < 2), `interpolate_monthly_to_daily` returns a value (a
275-day series for month 4) instead of failing. -/
theorem length_one_series_returns_value :
    (interpolate_monthly_to_daily [5] [4]).isOk = true ∧
    ((interpolate_monthly_to_daily [5] [4]).toOption.getD []).length = 275 := by
  constructor
  · rfl
  · rfl

/-- Claim C7, amended: the code performs no input validation and raises no
dedicated invalid-series error.  For a series/month list of length 1 with a
valid month the call returns the wraparound daily series
(366 − monthOffset m values) instead of failing, while a strictly
decreasing consecutive month pair surfaces the ValueError of the negative
linspace sample count. -/
theorem no_invalid_series_validation :
    (∀ (x : ℚ) (m : ℕ), 1 ≤ m → m ≤ 12 →
      ∃ l, interpolate_monthly_to_daily [x] [m] = Except.ok l ∧
        l.length = 366 - monthOffset m)
    ∧ (∀ (x y : ℚ) (m1 m2 : ℕ), 1 ≤ m2 → m2 < m1 → m1 ≤ 12 →
        interpolate_monthly_to_daily [x, y] [m1, m2] =
          Except.error PyError.valueError) := by
  constructor
  · intro x m h1 h2
    have hoff : monthOffset m ≤ 335 := monthOffset_le_335 m (by omega)
    unfold interpolate_monthly_to_daily
    rw [show interpFrom [x] [m] 0 ([m].length - 1) = Except.ok [] from rfl]
    dsimp only
    rw [show pyLast [x] = Except.ok x from rfl]
    dsimp only
    rw [show pyGet [x] 0 = Except.ok x from rfl]
    dsimp only
    rw [show pyLast [m] = Except.ok m from rfl]
    dsimp only
    rw [show dateOrdinal m = Except.ok ((monthOffset m : ℕ) : ℤ) from by
      simp [dateOrdinal, h1, h2]]
    dsimp only
    rw [linspaceEF, if_neg (by omega : ¬ (365 - ((monthOffset m : ℕ) : ℤ) + 1 < 0))]
    dsimp only
    refine ⟨_, rfl, ?_⟩
    rw [List.nil_append, List.length_take, List.length_map, List.length_range]
    omega
  · intro x y m1 m2 h1 h2 h3
    have hlt : monthOffset m2 < monthOffset m1 :=
      monthOffset_strict m1 (by omega) m2 h2 h1
    unfold interpolate_monthly_to_daily
    rw [show ([m1, m2].length - 1) = 0 + 1 from rfl]
    rw [interpFrom]
    rw [show pyGet [x, y] 0 = Except.ok x from rfl]
    dsimp only
    rw [show pyGet [x, y] (0 + 1) = Except.ok y from rfl]
    dsimp only
    rw [show pyGet [m1, m2] (0 + 1) = Except.ok m2 from rfl]
    dsimp only
    rw [show dateOrdinal m2 = Except.ok ((monthOffset m2 : ℕ) : ℤ) from by
      unfold dateOrdinal
      rw [if_pos (show 1 ≤ m2 ∧ m2 ≤ 12 by omega)]]
    dsimp only
    rw [show pyGet [m1, m2] 0 = Except.ok m1 from rfl]
    dsimp only
    rw [show dateOrdinal m1 = Except.ok ((monthOffset m1 : ℕ) : ℤ) from by
      unfold dateOrdinal
      rw [if_pos (show 1 ≤ m1 ∧ m1 ≤ 12 by omega)]]
    dsimp only
    rw [linspaceEF, if_pos
      (show ((monthOffset m2 : ℕ) : ℤ) - ((monthOffset m1 : ℕ) : ℤ) < 0 by omega)]

/-- Concrete instance of C7 (amended): a singleton series returns a value;
a decreasing month pair fails with the ValueError. -/
theorem no_invalid_series_validation_witness :
    (interpolate_monthly_to_daily [6] [4]).isOk = true ∧
    interpolate_monthly_to_daily [6, 7] [5, 4] = Except.error PyError.valueError := by
  constructor
  · obtain ⟨l, hl, _⟩ := no_invalid_series_validation.1 6 4 (by norm_num) (by norm_num)
    rw [hl]
    rfl
  · exact no_invalid_series_validation.2 6 7 5 4 (by norm_num) (by norm_num) (by norm_num)

/-! ### Claim C8 -/

theorem mkDay_eq_of_no_trigger (ct sn : String) (kc mad : ℚ) (dc : ℕ) (eto rn cum : ℚ)
    (h : ¬ cum + (max (rn - 0) 0 - calculate_et kc eto) > mad) :
    mkDay ct sn kc mad dc eto rn cum =
      (⟨dc, "Kharif", sn, ct, kc, eto, calculate_et kc eto, rn, round2 0,
        round2 (cum + (max (rn - 0) 0 - calculate_et kc eto)), "No"⟩,
       cum + (max (rn - 0) 0 - calculate_et kc eto)) := by
  simp only [mkDay, irrigationDecision, if_neg h]
  rfl

theorem mkDay_eq_of_trigger (ct sn : String) (kc mad : ℚ) (dc : ℕ) (eto rn cum : ℚ)
    (h : cum + (max (rn - 0) 0 - calculate_et kc eto) > mad) :
    mkDay ct sn kc mad dc eto rn cum =
      (⟨dc, "Kharif", sn, ct, kc, eto, calculate_et kc eto, rn, round2 mad,
        round2 0, "Yes"⟩, 0) := by
  simp only [mkDay, irrigationDecision, if_pos h]
  rfl

/-- Counterexample to C8 as stated: with the spec's own example threshold
`max_allowable_depletion = 1.05`, the scenario kc 0.5, ETo [2,2,2],
rainfall [0,0,5] DOES trigger irrigation on day 3 (cumulative deficit 2
exceeds 1.05): the day-3 record says "Yes" and stores the post-reset
cumulative deficit 0, not 2. -/
theorem three_day_scenario_cex :
    simStages ("cotton") (21/20) [2, 2, 2] [0, 0, 5] [⟨("s"), 1/2, 3⟩] 1 0 =
      Except.ok [⟨1, "Kharif", "s", "cotton", 1/2, 2, 1, 0, 0, -1, "No"⟩,
        ⟨2, "Kharif", "s", "cotton", 1/2, 2, 1, 0, 0, -2, "No"⟩,
        ⟨3, "Kharif", "s", "cotton", 1/2, 2, 1, 5, 21/20, 0, "Yes"⟩] := by
  norm_num [simStages, simStage, mkDay, irrigationDecision, pyGet, calculate_et,
    round2, round_eq]

/-- Claim C8, amended: for a single 3-day stage with kc 0.5, daily ETo
[2,2,2] and daily rainfall [0,0,5], the simulation produces ETc 1 on each
day, recorded cumulative deficits −1, −2, 2 and no irrigation trigger,
provided the threshold is at least 2; with the spec's example threshold
1.05 irrigation does trigger on day 3 (see the counterexample). -/
theorem three_day_scenario (ct sn : String) (mad : ℚ) (hmad : 2 ≤ mad) :
    simStages ct mad [2, 2, 2] [0, 0, 5] [⟨sn, 1/2, 3⟩] 1 0 =
      Except.ok [⟨1, "Kharif", sn, ct, 1/2, 2, 1, 0, 0, -1, "No"⟩,
        ⟨2, "Kharif", sn, ct, 1/2, 2, 1, 0, 0, -2, "No"⟩,
        ⟨3, "Kharif", sn, ct, 1/2, 2, 1, 5, 0, 2, "No"⟩] := by
  have hc1 : (mad < -1) = False := eq_false (by linarith)
  have hc2 : (mad < -2) = False := eq_false (by linarith)
  have hc3 : (mad < 2) = False := eq_false (by linarith)
  norm_num [simStages, simStage, mkDay, irrigationDecision, pyGet, calculate_et,
    round2, round_eq, hc1, hc2, hc3]

/-- Concrete instance of C8 (amended) at threshold 2. -/
theorem three_day_scenario_witness :
    simStages ("cotton") 2 [2, 2, 2] [0, 0, 5] [⟨("s"), 1/2, 3⟩] 1 0 =
      Except.ok [⟨1, "Kharif", "s", "cotton", 1/2, 2, 1, 0, 0, -1, "No"⟩,
        ⟨2, "Kharif", "s", "cotton", 1/2, 2, 1, 0, 0, -2, "No"⟩,
        ⟨3, "Kharif", "s", "cotton", 1/2, 2, 1, 5, 0, 2, "No"⟩] :=
  three_day_scenario ("cotton") ("s") 2 (by norm_num)

/-! ### Claim C3 -/

theorem monthOffset_mono : ∀ b, b < 13 → ∀ a, a ≤ b → monthOffset a ≤ monthOffset b := by
  decide

theorem getD_eq_getElem_of_lt {α : Type} (l : List α) (d : α) {n : ℕ} (h : n < l.length) :
    l.getD n d = l[n] := by
  rw [List.getD_eq_getElem?_getD, List.getElem?_eq_getElem h]
  rfl

theorem getD_mem {α : Type} (l : List α) (d : α) {n : ℕ} (h : n < l.length) :
    l.getD n d ∈ l := by
  rw [getD_eq_getElem_of_lt l d h]
  exact List.getElem_mem h

theorem linspace_ok_eq (s e : ℚ) (a b : ℕ) (hba : b ≤ a) :
    linspaceEF s e ((a : ℤ) - (b : ℤ)) = Except.ok (linSegment s e (a - b)) := by
  rw [linspaceEF, if_neg (by omega : ¬ ((a : ℤ) - (b : ℤ) < 0))]
  congr 1
  rw [Int.toNat_sub]
  unfold linSegment
  have hcast : ((a : ℤ) - (b : ℤ)) = (((a - b : ℕ) : ℕ) : ℤ) := by omega
  rw [hcast]
  simp [Int.cast_natCast]

theorem specBody_length (md : List ℚ) (sm : List ℕ) :
    ∀ (r i : ℕ), (specBody md sm i r).length = r := by
  intro r
  induction r with
  | zero => intro i; rfl
  | succ r ih => intro i; simp only [specBody, List.length_cons, ih]

theorem interpFrom_eq_specBody (md : List ℚ) (sm : List ℕ)
    (hlen : md.length = sm.length)
    (hub : ∀ m ∈ sm, 1 ≤ m ∧ m ≤ 12)
    (hadj : ∀ j, j + 1 < sm.length → sm.getD j 1 < sm.getD (j + 1) 1) :
    ∀ (r i : ℕ), i + r + 1 ≤ sm.length →
      interpFrom md sm i r = Except.ok (specBody md sm i r).flatten := by
  intro r
  induction r with
  | zero => intro i hi; rfl
  | succ r ih =>
    intro i hi
    have hiM : i < md.length := by rw [hlen]; omega
    have hi1M : i + 1 < md.length := by rw [hlen]; omega
    have hiS : i < sm.length := by omega
    have hi1S : i + 1 < sm.length := by omega
    have hub1 : 1 ≤ sm.getD (i + 1) 1 ∧ sm.getD (i + 1) 1 ≤ 12 :=
      hub (sm.getD (i + 1) 1) (getD_mem sm 1 hi1S)
    have hub0 : 1 ≤ sm.getD i 1 ∧ sm.getD i 1 ≤ 12 :=
      hub (sm.getD i 1) (getD_mem sm 1 hiS)
    have hlt : sm.getD i 1 < sm.getD (i + 1) 1 := hadj i hi1S
    have hoffle : monthOffset (sm.getD i 1) ≤ monthOffset (sm.getD (i + 1) 1) :=
      monthOffset_mono (sm.getD (i + 1) 1) (by omega) (sm.getD i 1) (le_of_lt hlt)
    rw [interpFrom]
    rw [pyGet_of_lt md i 0 hiM]
    dsimp only
    rw [pyGet_of_lt md (i + 1) 0 hi1M]
    dsimp only
    rw [pyGet_of_lt sm (i + 1) 1 hi1S]
    dsimp only
    rw [show dateOrdinal (sm.getD (i + 1) 1) =
        Except.ok ((monthOffset (sm.getD (i + 1) 1) : ℕ) : ℤ) from by
      unfold dateOrdinal
      rw [if_pos hub1]]
    dsimp only
    rw [pyGet_of_lt sm i 1 hiS]
    dsimp only
    rw [show dateOrdinal (sm.getD i 1) =
        Except.ok ((monthOffset (sm.getD i 1) : ℕ) : ℤ) from by
      unfold dateOrdinal
      rw [if_pos hub0]]
    dsimp only
    rw [linspace_ok_eq (md.getD i 0) (md.getD (i + 1) 0)
      (monthOffset (sm.getD (i + 1) 1)) (monthOffset (sm.getD i 1)) hoffle]
    dsimp only
    rw [ih (i + 1) (by omega)]
    dsimp only
    rw [specBody, List.flatten_cons]

set_option maxRecDepth 4000 in
theorem interpolate_eq_specSegments (md : List ℚ) (sm : List ℕ)
    (hlen : md.length = sm.length) (hN : 2 ≤ sm.length)
    (hub : ∀ m ∈ sm, 1 ≤ m ∧ m ≤ 12)
    (hmono : sm.Chain' (· < ·)) :
    interpolate_monthly_to_daily md sm = Except.ok (specSegments md sm).flatten := by
  have hadj : ∀ j, j + 1 < sm.length → sm.getD j 1 < sm.getD (j + 1) 1 := by
    intro j hj
    have h := List.chain'_iff_get.mp hmono j (by omega)
    rw [List.get_eq_getElem, List.get_eq_getElem] at h
    rw [getD_eq_getElem_of_lt sm 1 (by omega : j < sm.length),
      getD_eq_getElem_of_lt sm 1 hj]
    exact h
  have hsmne : sm ≠ [] := by
    intro hnil
    rw [hnil] at hN
    simp at hN
  have hmdne : md ≠ [] := by
    intro hnil
    rw [hnil] at hlen
    simp at hlen
    omega
  have hbody := interpFrom_eq_specBody md sm hlen hub hadj (sm.length - 1) 0 (by omega)
  unfold interpolate_monthly_to_daily
  rw [hbody]
  dsimp only
  rw [show pyLast md = Except.ok (md.getLast hmdne) from by
    unfold pyLast
    rw [List.getLast?_eq_getLast_of_ne_nil hmdne]]
  dsimp only
  rw [pyGet_of_lt md 0 0 (by rw [hlen]; omega)]
  dsimp only
  rw [show pyLast sm = Except.ok (sm.getLast hsmne) from by
    unfold pyLast
    rw [List.getLast?_eq_getLast_of_ne_nil hsmne]]
  dsimp only
  have hubL : 1 ≤ sm.getLast hsmne ∧ sm.getLast hsmne ≤ 12 :=
    hub (sm.getLast hsmne) (List.getLast_mem hsmne)
  rw [show dateOrdinal (sm.getLast hsmne) =
      Except.ok ((monthOffset (sm.getLast hsmne) : ℕ) : ℤ) from by
    unfold dateOrdinal
    rw [if_pos hubL]]
  dsimp only
  have hoffle : monthOffset (sm.getLast hsmne) ≤ 335 :=
    monthOffset_le_335 (sm.getLast hsmne) (by omega)
  rw [show (365 - ((monthOffset (sm.getLast hsmne) : ℕ) : ℤ) + 1) =
      (((366 : ℕ) : ℤ) - ((monthOffset (sm.getLast hsmne) : ℕ) : ℤ)) from by push_cast; ring]
  rw [linspace_ok_eq (md.getLast hmdne) (md.getD 0 0) 366
    (monthOffset (sm.getLast hsmne)) (by omega)]
  dsimp only
  rw [List.take_of_length_le (by simp [linSegment])]
  rw [specSegments, List.flatten_append]
  simp only [List.flatten_cons, List.flatten_nil, List.append_nil]
  congr 2
  unfold wrapSegment
  rw [show sm.getLast?.getD 1 = sm.getLast hsmne from by
    rw [List.getLast?_eq_getLast_of_ne_nil hsmne]
    rfl]
  rw [show md.getLast?.getD 0 = md.getLast hmdne from by
    rw [List.getLast?_eq_getLast_of_ne_nil hmdne]
    rfl]

set_option maxRecDepth 4000 in
/-- Claim C3, amended: for a monthly series aligned with a strictly
increasing list of N ≥ 2 valid months, `interpolate_monthly_to_daily`
returns exactly the concatenation, in order, of N segments: one per
consecutive month pair with `days_in_month` values starting at
`monthlySeries[i]` with constant consecutive differences, then the
wraparound segment over the days from the first of the last month through
December 31; each segment excludes its endpoint POSITION (values
`s + k·(e−s)/n` for `k < n`), so the endpoint value `monthlySeries[i+1]`
appears inside a segment only when the two segment endpoints are equal;
the total length is the sum of the segment day counts. -/
theorem interpolate_segment_structure (md : List ℚ) (sm : List ℕ)
    (hlen : md.length = sm.length) (hN : 2 ≤ sm.length)
    (hub : ∀ m ∈ sm, 1 ≤ m ∧ m ≤ 12)
    (hmono : sm.Chain' (· < ·)) :
    interpolate_monthly_to_daily md sm = Except.ok (specSegments md sm).flatten
    ∧ (specSegments md sm).length = sm.length
    ∧ (specSegments md sm).flatten.length = ((specSegments md sm).map List.length).sum
    ∧ (∀ (s e : ℚ) (n k : ℕ), k < n →
        (linSegment s e n).getD k 0 = s + (k : ℚ) * (e - s) / (n : ℚ))
    ∧ (∀ (s e : ℚ) (n k : ℕ), k + 1 < n →
        (linSegment s e n).getD (k + 1) 0 - (linSegment s e n).getD k 0 =
          (e - s) / (n : ℚ))
    ∧ (∀ (s e : ℚ) (n : ℕ), 0 < n → e ∈ linSegment s e n → e = s) := by
  have hgetD : ∀ (s e : ℚ) (n k : ℕ), k < n →
      (linSegment s e n).getD k 0 = s + (k : ℚ) * (e - s) / (n : ℚ) := by
    intro s e n k hk
    have hl : k < (linSegment s e n).length := by
      simp [linSegment, hk]
    rw [getD_eq_getElem_of_lt _ 0 hl]
    simp [linSegment]
  refine ⟨interpolate_eq_specSegments md sm hlen hN hub hmono, ?_, ?_, hgetD, ?_, ?_⟩
  · rw [specSegments, List.length_append, specBody_length]
    simp
    omega
  · rw [List.length_flatten]
  · intro s e n k hk
    rw [hgetD s e n (k + 1) hk, hgetD s e n k (by omega)]
    push_cast
    have hn0 : (n : ℚ) ≠ 0 := Nat.cast_ne_zero.mpr (by omega)
    field_simp
    ring
  · intro s e n hn he
    simp only [linSegment, List.mem_map, List.mem_range] at he
    obtain ⟨k, hk, hke⟩ := he
    by_contra hne
    have hn0 : (n : ℚ) ≠ 0 := Nat.cast_ne_zero.mpr (by omega)
    have hes : e - s ≠ 0 := sub_ne_zero.mpr hne
    have h1 : (k : ℚ) * (e - s) / (n : ℚ) = e - s := by linarith
    have h2 : (k : ℚ) * (e - s) = (e - s) * (n : ℚ) := by
      field_simp at h1
      linarith
    have h3 : (k : ℚ) = (n : ℚ) := by
      have := mul_right_cancel₀ hes (by linarith : (k : ℚ) * (e - s) = (n : ℚ) * (e - s))
      exact this
    have h4 : (k : ℚ) < (n : ℚ) := by exact_mod_cast hk
    rw [h3] at h4
    exact lt_irrefl _ h4

theorem linSegment_self (s : ℚ) (n : ℕ) : linSegment s s n = List.replicate n s := by
  unfold linSegment
  rw [List.map_congr_left (fun k _ => by simp : ∀ k ∈ List.range n,
    s + (k : ℚ) * (s - s) / (n : ℚ) = s)]
  rw [List.map_const', List.length_range]

/-- Counterexample to C3 as stated: with monthly values [5, 5] and months
[4, 5] (aligned, strictly increasing, N = 2) the first segment consists of
30 copies of 5, so it DOES include the value `monthlySeries[1] = 5`: the
interpolation excludes the endpoint position, not the endpoint value. -/
theorem interpolate_includes_endpoint_value :
    interpolate_monthly_to_daily [(5 : ℚ), 5] [4, 5] =
      Except.ok (List.replicate 30 (5 : ℚ) ++ List.replicate 245 (5 : ℚ)) ∧
    (5 : ℚ) ∈ List.replicate 30 (5 : ℚ) := by
  constructor
  · rw [interpolate_eq_specSegments [(5 : ℚ), 5] [4, 5] rfl (by norm_num) (by decide)
      (by norm_num [List.chain'_cons, List.chain'_singleton])]
    congr 1
    rw [specSegments]
    norm_num [specBody, wrapSegment, monthOffset, monthsDays2024]
    rw [linSegment_self, linSegment_self, ← List.replicate_add]
  · simp

/-- Concrete instance of C3 (amended): a two-month season [11, 12]. -/
theorem interpolate_segment_structure_witness :
    interpolate_monthly_to_daily [(5 : ℚ), 6] [11, 12] =
      Except.ok (specSegments [(5 : ℚ), 6] [11, 12]).flatten ∧
    (specSegments [(5 : ℚ), 6] [11, 12]).length = ([11, 12] : List ℕ).length :=
  ⟨(interpolate_segment_structure [(5 : ℚ), 6] [11, 12] rfl (by norm_num) (by decide)
      (by norm_num [List.chain'_cons, List.chain'_singleton])).1,
   (interpolate_segment_structure [(5 : ℚ), 6] [11, 12] rfl (by norm_num) (by decide)
      (by norm_num [List.chain'_cons, List.chain'_singleton])).2.1⟩
